import Mathlib

/-!
Shallow embedding of the podcast-explorer data-fetch/derive pipeline:
the catalog fetcher `fetchPodcasts` and show-detail fetcher
`fetchShowDetails` from `src/App.jsx`, and the detail-view state logic
(`loadShowDetails` effect, `genreTags`, `totalEpisodes`,
`handleSeasonChange`, `currentSeason` and the render branches) from
`src/components/ShowDetailPage.jsx`.

JavaScript records become Lean structures; the remote `fetch` call is
modelled by a `FetchOutcome` value describing what the network returned
(transport failure, or an HTTP status plus the result of JSON-parsing
the body); React `useState` setters become explicit state updates on a
`DetailPageState` record, and the asynchronous interleaving of effect
runs and fetch completions becomes a list of `PageEvent`s folded over a
step function.
-/

/-- Genre reference record, shape `{id, title}` (static local data). -/
structure Genre where
  id : Int
  title : String
deriving DecidableEq

/-- Episode record, from the `@typedef Episode` in App.jsx. -/
structure Episode where
  title : String
  description : String
  file : String
deriving DecidableEq

/-- Season record, from the `@typedef Season` in App.jsx. -/
structure Season where
  season : Int
  title : String
  image : String
  episodes : List Episode
deriving DecidableEq

/-- Full show detail record, from the `@typedef PodcastShow` in App.jsx. -/
structure PodcastShow where
  id : String
  title : String
  description : String
  image : String
  updated : String
  genres : List Int
  seasons : List Season
deriving DecidableEq

/-- Catalog preview record, from the `@typedef PodcastPreview` in App.jsx. -/
structure PodcastPreview where
  id : String
  title : String
  image : String
  seasons : Nat
  updated : String
  genres : List Int
deriving DecidableEq

/-- What the network produced for one `fetch` call: either the promise
rejected (transport failure) with an error message, or an HTTP response
arrived with `status`, whose body JSON-parses to `Except.ok` a value or
`Except.error` a parse-failure message. -/
inductive FetchOutcome (α : Type) where
  | noResponse (message : String)
  | response (status : Nat) (body : Except String α)

/-- The Fetch API predicate res.ok: status in [200, 299]. -/
def resOk (status : Nat) : Bool :=
  decide (200 ≤ status ∧ status ≤ 299)

/-- The function fetchPodcasts (App.jsx lines 120-132), reduced to its data flow:
on a non-ok status it throws an error whose message is the bare status
string; on parse/transport failure the thrown message propagates; on
success the parsed body is handed to `setPodcasts` unchanged.  The
returned `Except` is the pair (setPodcasts value | setError message). -/
def fetchPodcasts (o : FetchOutcome (List PodcastPreview)) :
    Except String (List PodcastPreview) :=
  match o with
  | .noResponse msg => .error msg
  | .response status body =>
    if resOk status then
      match body with
      | .ok data => .ok data
      | .error msg => .error msg
    else
      .error (toString status)

/-- How App.jsx line 54 surfaces a catalog fetch error to the user:
the error message interpolated after a fixed prefix. -/
def catalogErrorDisplay (error : String) : String :=
  "Error occurred while fetching podcasts: " ++ error

/-- The function fetchShowDetails (App.jsx lines 144-164), reduced to its final
effect on the caller: the returned value (`some data` or `none`, the
code returns `null` on every failure path) paired with the message
passed to `setError` in the catch branch (`none` when no error was
set by this invocation). -/
def fetchShowDetails (o : FetchOutcome PodcastShow) :
    Option PodcastShow × Option String :=
  match o with
  | .noResponse msg => (none, some msg)
  | .response status body =>
    if resOk status then
      match body with
      | .ok data => (some data, none)
      | .error msg => (none, some msg)
    else if status = 404 then
      (none, some "Show not found.")
    else
      (none, some ("Failed to fetch show details: " ++ toString status))

/-- One call to a React state setter made by `fetchShowDetails`. -/
inductive SetterEvent where
  | setLoading (b : Bool)
  | setError (e : Option String)
deriving DecidableEq

/-- The exact sequence of setter calls `fetchShowDetails` performs on
each path, in program order, paired with its return value:
`setLoading(true); setError(null)` up front, `setError(message)` in the
catch branch, and `setLoading(false)` in the finally branch. -/
def fetchShowDetailsTrace (o : FetchOutcome PodcastShow) :
    List SetterEvent × Option PodcastShow :=
  match o with
  | .noResponse msg =>
    ([.setLoading true, .setError none, .setError (some msg), .setLoading false], none)
  | .response status body =>
    if resOk status then
      match body with
      | .ok data =>
        ([.setLoading true, .setError none, .setLoading false], some data)
      | .error msg =>
        ([.setLoading true, .setError none, .setError (some msg), .setLoading false], none)
    else if status = 404 then
      ([.setLoading true, .setError none,
        .setError (some "Show not found."), .setLoading false], none)
    else
      ([.setLoading true, .setError none,
        .setError (some ("Failed to fetch show details: " ++ toString status)),
        .setLoading false], none)

/-- The loading/error slots a `SetterEvent` acts on. -/
structure FlagState where
  loading : Bool
  error : Option String
deriving DecidableEq

/-- Apply one setter call to the flag state. -/
def applySetter (s : FlagState) : SetterEvent → FlagState
  | .setLoading b => { s with loading := b }
  | .setError e => { s with error := e }

/-- Apply a sequence of setter calls in order. -/
def applySetters (s : FlagState) (l : List SetterEvent) : FlagState :=
  l.foldl applySetter s

/-- The React state of `ShowDetailPage` (ShowDetailPage.jsx lines
18-23) plus the current route id: the `show`, `loading`, `error` and
`selectedSeasonIndex` slots, and the `id` route parameter the effect
last ran for. -/
structure DetailPageState where
  showState : Option PodcastShow
  loading : Bool
  error : Option String
  selectedSeasonIndex : Nat
  currentId : String
deriving DecidableEq

/-- Component state at mount: `useState(null)`, `useState(true)`,
`useState(null)`, `useState(0)`; no id fetched yet. -/
def initialPageState : DetailPageState :=
  { showState := none, loading := true, error := none
    selectedSeasonIndex := 0, currentId := "" }

/-- The continuation that runs when one `fetchShowDetails` call
resolves (ShowDetailPage.jsx lines 31-40 plus the setters inside
fetchShowDetails): the finally branch clears `loading`; on failure the
catch branch stored the message in `error`; on a truthy result the
caller runs `setShow(data)` and, only when `data.seasons` is non-empty,
`setSelectedSeasonIndex(0)`.  Note the continuation performs no check
that the resolved request is still the one for the current id. -/
def completeFetch (s : DetailPageState) (o : FetchOutcome PodcastShow) :
    DetailPageState :=
  match fetchShowDetails o with
  | (some data, _) =>
    let s1 := { s with loading := false, showState := some data }
    if 0 < data.seasons.length then { s1 with selectedSeasonIndex := 0 } else s1
  | (none, err) => { s with loading := false, error := err }

/-- An observable event in the life of the detail page: the route id
changes (the `useEffect` keyed on `[id]` fires and `fetchShowDetails`
synchronously runs `setLoading(true); setError(null)` before its first
await), a pending fetch for some id resolves with a network outcome,
or the user picks a season in the dropdown (`handleSeasonChange`). -/
inductive PageEvent where
  | changeId (newId : String)
  | resolve (forId : String) (o : FetchOutcome PodcastShow)
  | selectSeason (k : Nat)

/-- One step of the detail page. `resolve` ignores `forId` exactly as
the code does: `loadShowDetails` applies whatever data comes back.  A
`selectSeason` event can only arise from the rendered dropdown, which
exists only in the non-loading, non-error, loaded render branch and
whose options are the indices of the rendered show's seasons; an event
outside those conditions is a no-op. -/
def stepPage (s : DetailPageState) (e : PageEvent) : DetailPageState :=
  match e with
  | .changeId newId => { s with currentId := newId, loading := true, error := none }
  | .resolve _ o => completeFetch s o
  | .selectSeason k =>
    match s.showState with
    | some sh =>
      if s.loading = false ∧ s.error = none ∧ k < sh.seasons.length then
        { s with selectedSeasonIndex := k }
      else s
    | none => s

/-- Fold a sequence of page events from a starting state. -/
def runPage (s : DetailPageState) (evts : List PageEvent) : DetailPageState :=
  evts.foldl stepPage s

/-- The expression show.seasons[selectedSeasonIndex] (ShowDetailPage.jsx line 113):
JavaScript indexing yields the element in range and `undefined` (here
`none`) out of range. -/
def currentSeason (sh : PodcastShow) (i : Nat) : Option Season :=
  sh.seasons[i]?

/-- What the detail page renders, following the early-return chain at
ShowDetailPage.jsx lines 77-111: loading spinner, else error banner,
else not-found message when `show` is null, else the detail layout
with the (possibly absent) current season's episode section. -/
inductive View where
  | loadingView
  | errorView (msg : String)
  | notFoundView
  | detailView (sh : PodcastShow) (season : Option Season)
deriving DecidableEq

/-- The render function of `ShowDetailPage` at the view level. -/
def renderPage (s : DetailPageState) : View :=
  if s.loading then .loadingView
  else
    match s.error with
    | some m => .errorView m
    | none =>
      match s.showState with
      | none => .notFoundView
      | some sh => .detailView sh (currentSeason sh s.selectedSeasonIndex)

/-- The genre-tag labels (ShowDetailPage.jsx lines 48-58): `[]` when
`show` is null, else each genre id mapped through `allGenres.find`,
falling back to an Unknown label. -/
def genreTags (s : Option PodcastShow) (allGenres : List Genre) : List String :=
  match s with
  | none => []
  | some sh =>
    sh.genres.map (fun genreId =>
      match allGenres.find? (fun g => g.id == genreId) with
      | some g => g.title
      | none => "Unknown (" ++ toString genreId ++ ")")

/-- The label computed for a single genre id, the body of the map in
`genreTags`. -/
def genreLabel (allGenres : List Genre) (genreId : Int) : String :=
  match allGenres.find? (fun g => g.id == genreId) with
  | some g => g.title
  | none => "Unknown (" ++ toString genreId ++ ")"

/-- The memo totalEpisodes (ShowDetailPage.jsx lines 64-67): 0 when `show` is
null, else `show.seasons.reduce((acc, season) => acc +
season.episodes.length, 0)`. -/
def totalEpisodes (s : Option PodcastShow) : Nat :=
  match s with
  | none => 0
  | some sh => sh.seasons.foldl (fun acc season => acc + season.episodes.length) 0

/-- JavaScript `s.substring(0, n)`: the first `n` characters. -/
def substringTo (s : String) (n : Nat) : String :=
  String.mk (s.data.take n)

/-- The episode summary rendered at ShowDetailPage.jsx line 180:
`episode.description.substring(0, 150)` followed by a literal
ellipsis, appended unconditionally. -/
def episodeSummary (e : Episode) : String :=
  substringTo e.description 150 ++ "..."

/-- The season-index safety property of the detail page: whenever a
show with at least one season is loaded, the selected index denotes an
existing season. -/
def seasonIndexOK (s : DetailPageState) : Prop :=
  ∀ sh, s.showState = some sh → sh.seasons ≠ [] →
    s.selectedSeasonIndex < sh.seasons.length

/-! Concrete fixtures used by counterexamples and witnesses. -/

/-- A one-episode season. -/
def seasonOne : Season := ⟨1, "Season One", "img1", [⟨"E1", "d1", "f1"⟩]⟩

/-- A two-episode season. -/
def seasonTwo : Season := ⟨2, "Season Two", "img2", [⟨"E2", "d2", "f2"⟩, ⟨"E3", "d3", "f3"⟩]⟩

/-- A season with no episodes. -/
def seasonEmpty : Season := ⟨3, "Season Three", "img3", []⟩

/-- Show with id "A", one season. -/
def showA : PodcastShow :=
  ⟨"A", "Show A", "about A", "imgA", "2024-01-01T00:00:00.000Z", [1], [seasonOne]⟩

/-- Show with id "B", one season. -/
def showB : PodcastShow :=
  ⟨"B", "Show B", "about B", "imgB", "2024-02-01T00:00:00.000Z", [2], [seasonTwo]⟩

/-- Show with three seasons. -/
def showThreeSeasons : PodcastShow :=
  ⟨"C", "Show C", "about C", "imgC", "2024-03-01T00:00:00.000Z", [1, 2],
    [seasonOne, seasonTwo, seasonEmpty]⟩

/-- Show whose `seasons` array is empty. -/
def showNoSeasons : PodcastShow :=
  ⟨"E", "Show E", "about E", "imgE", "2024-04-01T00:00:00.000Z", [3], []⟩

/-! Helper lemmas. -/

/-- Folding episode-count addition from an accumulator equals the
accumulator plus the sum of the per-season episode counts. -/
lemma foldl_episodes_eq_sum (l : List Season) (n : Nat) :
    l.foldl (fun acc season => acc + season.episodes.length) n =
      n + (l.map (fun season => season.episodes.length)).sum := by
  induction l generalizing n with
  | nil => simp
  | cons s t ih => simp [List.foldl, ih, Nat.add_assoc]

/-- Completion of a fetch preserves the season-index safety property:
a successful load of a show with seasons resets the index to 0, a
successful load of a seasonless show leaves the (vacuous) property
intact, and a failed load changes neither slot. -/
lemma completeFetch_preserves_seasonIndexOK (s : DetailPageState)
    (o : FetchOutcome PodcastShow) (h : seasonIndexOK s) :
    seasonIndexOK (completeFetch s o) := by
  unfold completeFetch
  split
  · rename_i data snd heq
    dsimp only
    split
    · rename_i hlen
      intro sh hsh hne
      cases Option.some.inj hsh
      exact hlen
    · rename_i hlen
      intro sh hsh hne
      cases Option.some.inj hsh
      exact absurd (List.eq_nil_of_length_eq_zero (Nat.eq_zero_of_not_pos hlen)) hne
  · rename_i err heq
    intro sh hsh hne
    exact h sh hsh hne

/-- One page step preserves the season-index safety property. -/
lemma stepPage_preserves_seasonIndexOK (s : DetailPageState) (e : PageEvent)
    (h : seasonIndexOK s) : seasonIndexOK (stepPage s e) := by
  cases e with
  | changeId newId =>
    intro sh hsh hne
    exact h sh hsh hne
  | resolve forId o =>
    exact completeFetch_preserves_seasonIndexOK s o h
  | selectSeason k =>
    simp only [stepPage]
    split
    · rename_i sh0 hss
      split
      · rename_i hg
        intro sh hsh hne
        have hs0 : sh0 = sh := Option.some.inj (hss ▸ hsh)
        subst hs0
        exact hg.2.2
      · exact h
    · exact h

/-- Running the page from any safe state stays safe. -/
lemma runPage_preserves_seasonIndexOK (evts : List PageEvent) :
    ∀ s : DetailPageState, seasonIndexOK s → seasonIndexOK (runPage s evts) := by
  induction evts with
  | nil => intro s h; exact h
  | cons e t ih =>
    intro s h
    exact ih (stepPage s e) (stepPage_preserves_seasonIndexOK s e h)

/-- The mount state is trivially safe (no show loaded). -/
lemma initialPageState_seasonIndexOK : seasonIndexOK initialPageState := by
  intro sh hsh hne
  exact absurd hsh (by simp [initialPageState])

/-! Claim theorems. -/

/-- C1: the code has no stale-response guard, so on rapid navigation
from show A to show B where B's response arrives first, the later
arrival of A's stale response overwrites B's detail: the final visible
state is A's detail although the latest requested id is "B".  This
trace evaluates `runPage` at that failing input. -/
theorem stale_response_overwrites_newer_detail :
    (runPage initialPageState
      [PageEvent.changeId "A", PageEvent.changeId "B",
       PageEvent.resolve "B" (FetchOutcome.response 200 (Except.ok showB)),
       PageEvent.resolve "A" (FetchOutcome.response 200 (Except.ok showA))]).currentId
        = "B" ∧
    (runPage initialPageState
      [PageEvent.changeId "A", PageEvent.changeId "B",
       PageEvent.resolve "B" (FetchOutcome.response 200 (Except.ok showB)),
       PageEvent.resolve "A" (FetchOutcome.response 200 (Except.ok showA))]).showState
        = some showA ∧
    showA.id = "A" ∧ showB.id = "B" ∧ showA ≠ showB ∧
    renderPage (runPage initialPageState
      [PageEvent.changeId "A", PageEvent.changeId "B",
       PageEvent.resolve "B" (FetchOutcome.response 200 (Except.ok showB)),
       PageEvent.resolve "A" (FetchOutcome.response 200 (Except.ok showA))])
        = View.detailView showA (some seasonOne) := by
  refine ⟨rfl, rfl, rfl, rfl, by decide, rfl⟩

/-- C2 counterexample: a successful load of show A followed by a failed
fetch for show B leaves A's ShowDetail in the `show` slot — the failed
fetch neither replaces it nor sets it to absent. -/
theorem failed_fetch_retains_previous_detail :
    (runPage initialPageState
      [PageEvent.changeId "A",
       PageEvent.resolve "A" (FetchOutcome.response 200 (Except.ok showA)),
       PageEvent.changeId "B",
       PageEvent.resolve "B" (FetchOutcome.response 500 (Except.error "unused"))]).currentId
        = "B" ∧
    (runPage initialPageState
      [PageEvent.changeId "A",
       PageEvent.resolve "A" (FetchOutcome.response 200 (Except.ok showA)),
       PageEvent.changeId "B",
       PageEvent.resolve "B" (FetchOutcome.response 500 (Except.error "unused"))]).showState
        = some showA ∧
    (runPage initialPageState
      [PageEvent.changeId "A",
       PageEvent.resolve "A" (FetchOutcome.response 200 (Except.ok showA)),
       PageEvent.changeId "B",
       PageEvent.resolve "B" (FetchOutcome.response 500 (Except.error "unused"))]).error
        = some "Failed to fetch show details: 500" ∧
    showA.id ≠ "B" := by
  refine ⟨rfl, rfl, by decide, by decide⟩

/-- C2 amended: every failed fetch stores its message in the error
slot and clears loading, so the page then renders the error view —
the previously loaded ShowDetail, though still in the state slot, is
never rendered as current data after a failure. -/
theorem failed_fetch_renders_error_view (s : DetailPageState)
    (o : FetchOutcome PodcastShow) (m : String)
    (h : fetchShowDetails o = (none, some m)) :
    renderPage (completeFetch s o) = View.errorView m := by
  unfold completeFetch
  rw [h]
  simp [renderPage]

/-- A detail-page state holding show A, mid-load for id "B". -/
def stateWithShowA : DetailPageState :=
  { showState := some showA, loading := true, error := none
    selectedSeasonIndex := 0, currentId := "B" }

/-- C2 amended, witnessed at a concrete failing fetch. -/
theorem failed_fetch_renders_error_view_witness :
    renderPage (completeFetch stateWithShowA
        (FetchOutcome.response 500 (Except.error "unused"))) =
      View.errorView "Failed to fetch show details: 500" :=
  failed_fetch_renders_error_view stateWithShowA
    (FetchOutcome.response 500 (Except.error "unused"))
    "Failed to fetch show details: 500" (by decide)

/-- C3 counterexample: loading a new ShowDetail whose `seasons` array
is empty does not reset the selected index — the guard
`data.seasons.length > 0` skips the reset, so after selecting season 2
of a three-season show and then loading a seasonless show, the index
is still 2, although a new ShowDetail was loaded. -/
theorem empty_seasons_load_skips_index_reset :
    (runPage initialPageState
      [PageEvent.changeId "C",
       PageEvent.resolve "C" (FetchOutcome.response 200 (Except.ok showThreeSeasons)),
       PageEvent.selectSeason 2,
       PageEvent.changeId "E",
       PageEvent.resolve "E" (FetchOutcome.response 200 (Except.ok showNoSeasons))]).showState
        = some showNoSeasons ∧
    (runPage initialPageState
      [PageEvent.changeId "C",
       PageEvent.resolve "C" (FetchOutcome.response 200 (Except.ok showThreeSeasons)),
       PageEvent.selectSeason 2,
       PageEvent.changeId "E",
       PageEvent.resolve "E" (FetchOutcome.response 200 (Except.ok showNoSeasons))]).selectedSeasonIndex
        = 2 := by
  refine ⟨rfl, rfl⟩

/-- C3 amended: the index resets to 0 whenever a new ShowDetail with
non-empty seasons is loaded; along every event sequence from mount the
index is a valid index into the loaded detail's seasons whenever they
are non-empty; and `currentSeason` yields `seasons[index]` in range
and is absent otherwise. -/
theorem season_index_reset_and_validity :
    (∀ (s : DetailPageState) (o : FetchOutcome PodcastShow) (data : PodcastShow)
        (e2 : Option String), fetchShowDetails o = (some data, e2) →
        data.seasons ≠ [] → (completeFetch s o).selectedSeasonIndex = 0) ∧
    (∀ evts : List PageEvent, seasonIndexOK (runPage initialPageState evts)) ∧
    (∀ (sh : PodcastShow) (i : Nat) (h : i < sh.seasons.length),
        currentSeason sh i = some (sh.seasons.get ⟨i, h⟩)) ∧
    (∀ (sh : PodcastShow) (i : Nat), sh.seasons.length ≤ i →
        currentSeason sh i = none) := by
  refine ⟨?_, ?_, ?_, ?_⟩
  · intro s o data e2 hfo hne
    unfold completeFetch
    rw [hfo]
    have hlen : 0 < data.seasons.length := List.length_pos.mpr hne
    simp [hlen]
  · intro evts
    exact runPage_preserves_seasonIndexOK evts initialPageState
      initialPageState_seasonIndexOK
  · intro sh i h
    simp [currentSeason, List.getElem?_eq_getElem h, List.get_eq_getElem]
  · intro sh i h
    simp [currentSeason, List.getElem?_eq_none_iff.mpr h]

/-- A detail-page state with index 2, mid-load. -/
def stateIndexTwo : DetailPageState :=
  { showState := some showThreeSeasons, loading := true, error := none
    selectedSeasonIndex := 2, currentId := "B" }

/-- C3 amended, witnessed: loading show B (one season) from index 2
resets the index to 0. -/
theorem season_index_reset_and_validity_witness :
    (completeFetch stateIndexTwo
      (FetchOutcome.response 200 (Except.ok showB))).selectedSeasonIndex = 0 :=
  season_index_reset_and_validity.1 stateIndexTwo
    (FetchOutcome.response 200 (Except.ok showB)) showB none (by decide) (by decide)

/-- C4: a 404 response makes `fetchShowDetails` fail with exactly the
message "Show not found." and no success value, whatever the body. -/
theorem detail_404_yields_show_not_found (body : Except String PodcastShow) :
    fetchShowDetails (FetchOutcome.response 404 body) =
      (none, some "Show not found.") := rfl

/-- C5: every status outside [200, 299] makes both fetchers fail with
no success value; the catalog error surfaces as "Error occurred while
fetching podcasts: <status>" (the thrown message is the bare status
string, interpolated by App.jsx line 54), and the non-404 detail error
message is "Failed to fetch show details: <status>". -/
theorem non2xx_yields_error_result (st : Nat)
    (bodyC : Except String (List PodcastPreview)) (bodyD : Except String PodcastShow)
    (h : ¬(200 ≤ st ∧ st ≤ 299)) :
    fetchPodcasts (FetchOutcome.response st bodyC) = Except.error (toString st) ∧
    (∀ m, fetchPodcasts (FetchOutcome.response st bodyC) = Except.error m →
      catalogErrorDisplay m = "Error occurred while fetching podcasts: " ++ toString st) ∧
    (fetchShowDetails (FetchOutcome.response st bodyD)).1 = none ∧
    (st ≠ 404 → fetchShowDetails (FetchOutcome.response st bodyD) =
      (none, some ("Failed to fetch show details: " ++ toString st))) := by
  have hok : resOk st = false := decide_eq_false h
  refine ⟨?_, ?_, ?_, ?_⟩
  · simp [fetchPodcasts, hok]
  · intro m hm
    simp [fetchPodcasts, hok] at hm
    simp [catalogErrorDisplay, hm]
  · by_cases h4 : st = 404
    · subst h4
      simp [fetchShowDetails, resOk]
    · simp [fetchShowDetails, hok, h4]
  · intro h4
    simp [fetchShowDetails, hok, h4]

/-- C5, witnessed at status 500. -/
theorem non2xx_yields_error_result_witness :
    fetchPodcasts (FetchOutcome.response 500 (Except.ok [])) = Except.error "500" ∧
    fetchShowDetails (FetchOutcome.response 500 (Except.ok showA)) =
      (none, some "Failed to fetch show details: 500") := by
  obtain ⟨h1, _, _, h4⟩ :=
    non2xx_yields_error_result 500 (Except.ok []) (Except.ok showA) (by decide)
  exact ⟨h1, h4 (by decide)⟩

/-- C6: `episodeSummary` is the first 150 characters of the
description followed by the three-character ellipsis, and the ellipsis
is appended even when the description is short (at most 150
characters), in which case the summary is the whole description plus
the marker. -/
theorem episodeSummary_truncates_and_appends_ellipsis (e : Episode) :
    (episodeSummary e).data = e.description.data.take 150 ++ ['.', '.', '.'] ∧
    (e.description.length ≤ 150 → episodeSummary e = e.description ++ "...") := by
  rcases e with ⟨t, dsc, f⟩
  rcases dsc with ⟨l⟩
  constructor
  · simp [episodeSummary, substringTo, String.data_append]
  · intro hlen
    have hl : l.length ≤ 150 := hlen
    simp only [episodeSummary, substringTo]
    have : l.take 150 = l := List.take_of_length_le hl
    rw [this]

/-- C6, witnessed: a 10-character description still gets the
ellipsis marker. -/
theorem episodeSummary_short_description_witness :
    episodeSummary ⟨"E", "short page", "f"⟩ = "short page" ++ "..." :=
  (episodeSummary_truncates_and_appends_ellipsis ⟨"E", "short page", "f"⟩).2 (by decide)

/-- Show whose genre ids are `[1, 99]`, for the reference scenario. -/
def showUnknownGenre : PodcastShow :=
  ⟨"U", "Show U", "about U", "imgU", "2024-05-01T00:00:00.000Z", [1, 99], [seasonOne]⟩

/-- C7: `genreTags` maps each genre id, in the order of the show's
genre list and without deduplication, to the matching reference
genre's title, or to "Unknown (<id>)" when no reference genre matches;
on `genreIds = [1, 99]` with reference `[{id 1, "Comedy"}]` it yields
`["Comedy", "Unknown (99)"]`.  Determinism on equal inputs is
inherent: the embedding is a pure function. -/
theorem genreTags_maps_ids_in_order (sh : PodcastShow) (gs : List Genre) :
    genreTags (some sh) gs = sh.genres.map (genreLabel gs) ∧
    (∀ gid g, gs.find? (fun x => x.id == gid) = some g →
      genreLabel gs gid = g.title) ∧
    (∀ gid : Int, (∀ g ∈ gs, g.id ≠ gid) →
      genreLabel gs gid = "Unknown (" ++ toString gid ++ ")") ∧
    genreTags (some showUnknownGenre) [⟨1, "Comedy"⟩] = ["Comedy", "Unknown (99)"] := by
  refine ⟨rfl, ?_, ?_, by decide⟩
  · intro gid g hg
    simp [genreLabel, hg]
  · intro gid hall
    have hnone : gs.find? (fun x => x.id == gid) = none := by
      rw [List.find?_eq_none]
      intro g hg
      simpa using hall g hg
    simp [genreLabel, hnone]

/-- C7, witnessed: id 99 has no match in the one-genre reference list
and labels as "Unknown (99)". -/
theorem genreTags_maps_ids_in_order_witness :
    genreLabel [⟨1, "Comedy"⟩] 99 = "Unknown (99)" := by
  have h := (genreTags_maps_ids_in_order showUnknownGenre [⟨1, "Comedy"⟩]).2.2.1
    99 (by decide)
  simpa using h

/-- C8: `totalEpisodes` is the sum of the per-season episode counts;
concretely 3 over seasons with 1, 2 and 0 episodes, and 0 when the
seasons array is empty. -/
theorem totalEpisodes_sums_season_lengths :
    (∀ sh : PodcastShow, totalEpisodes (some sh) =
      (sh.seasons.map (fun season => season.episodes.length)).sum) ∧
    totalEpisodes (some showNoSeasons) = 0 ∧
    totalEpisodes (some showThreeSeasons) = 3 := by
  refine ⟨?_, by decide, by decide⟩
  intro sh
  simpa using foldl_episodes_eq_sum sh.seasons 0

/-- C9: on any 2xx response whose body parses, `fetchPodcasts` returns
the parsed array unchanged — same length, same elements in the same
order, no validation or filtering. -/
theorem fetchPodcasts_passes_catalog_through (st : Nat) (l : List PodcastPreview)
    (h : 200 ≤ st ∧ st ≤ 299) :
    fetchPodcasts (FetchOutcome.response st (Except.ok l)) = Except.ok l ∧
    (∀ r, fetchPodcasts (FetchOutcome.response st (Except.ok l)) = Except.ok r →
      r.length = l.length ∧ ∀ i : Nat, r[i]? = l[i]?) := by
  have hok : resOk st = true := decide_eq_true h
  constructor
  · simp [fetchPodcasts, hok]
  · intro r hr
    simp [fetchPodcasts, hok] at hr
    subst hr
    exact ⟨rfl, fun i => rfl⟩

/-- A first catalog preview row. -/
def previewOne : PodcastPreview := ⟨"1", "P1", "i1", 2, "2024", [1]⟩

/-- A second catalog preview row. -/
def previewTwo : PodcastPreview := ⟨"2", "P2", "i2", 1, "2024", [2, 3]⟩

/-- C9, witnessed at status 200 with a two-element catalog. -/
theorem fetchPodcasts_passes_catalog_through_witness :
    fetchPodcasts (FetchOutcome.response 200 (Except.ok [previewOne, previewTwo])) =
      Except.ok [previewOne, previewTwo] :=
  (fetchPodcasts_passes_catalog_through 200 [previewOne, previewTwo] (by decide)).1

/-- C10: every `fetchShowDetails` invocation first sets loading and
clears the previous error, and on every path — success, 404, other
HTTP failure, transport or parse failure — its last setter call turns
loading off; folding its setter calls over any prior flag state leaves
loading false and the error equal to this invocation's own outcome
(none on success), never a leftover from an earlier request. -/
theorem fetchShowDetails_loading_error_protocol (o : FetchOutcome PodcastShow)
    (s0 : FlagState) :
    (fetchShowDetailsTrace o).1.take 2 =
      [SetterEvent.setLoading true, SetterEvent.setError none] ∧
    (fetchShowDetailsTrace o).1.getLast? = some (SetterEvent.setLoading false) ∧
    (applySetters s0 (fetchShowDetailsTrace o).1).loading = false ∧
    (applySetters s0 (fetchShowDetailsTrace o).1).error = (fetchShowDetails o).2 ∧
    (fetchShowDetailsTrace o).2 = (fetchShowDetails o).1 := by
  rcases o with msg | ⟨st, body⟩
  · simp [fetchShowDetailsTrace, fetchShowDetails, applySetters, applySetter]
  · by_cases hok : resOk st
    · cases body with
      | ok data =>
        simp [fetchShowDetailsTrace, fetchShowDetails, hok, applySetters, applySetter]
      | error msg =>
        simp [fetchShowDetailsTrace, fetchShowDetails, hok, applySetters, applySetter]
    · by_cases h4 : st = 404
      · subst h4
        simp [fetchShowDetailsTrace, fetchShowDetails, resOk, applySetters, applySetter]
      · simp [fetchShowDetailsTrace, fetchShowDetails, hok, h4, applySetters, applySetter]
